import Mathlib

/-!
# allspark-orchestrator: the HTTP handlers of `api/common.go`

A shallow embedding of `validateRequest`, `getStatus`, `terminate`, `checkIn`
and `healthCheck`.  The handlers talk to packages whose code is elsewhere
(`monitor`, `cloud`, `util/serializer`, `logger`); those operations are the
fields of `World`, each one free to read and to change an abstract world
state `σ`.  Every handler returns the response writer it was given after its
writes, the world state it leaves, and the list of the outside calls it made,
in order.

Go `string` is `String`, `[]byte` is `List Nat` (one number per byte), an
`error` is `Option String` (`none` is `nil`, `some m` has `Error() = m`).
Go `len(s) == 0` on a string is `s.length = 0`: counted in bytes or in
characters, the length is zero for the empty string only.
-/

namespace Allspark

/-- Go `[]byte`. -/
abbrev Bytes := List Nat

/-- Go `http.StatusOK`. -/
def StatusOK : Nat := 200

/-- Go `http.StatusBadRequest`. -/
def StatusBadRequest : Nat := 400

/-- Go `http.StatusServiceUnavailable`. -/
def StatusServiceUnavailable : Nat := 503

/-- An `io.ReadCloser` as `ioutil.ReadAll` sees it: the bytes it yields and
the error the read ends with (`none` at a clean end of input). -/
structure Reader where
  data : Bytes
  err : Option String

/-- The parts of `*http.Request` the handlers touch.  `FormValue` and
`PostFormValue` are net/http's accessors; what they return for a key is
carried by the request. -/
structure Request where
  Method : String
  Body : Option Reader
  FormValue : String → String
  PostFormValue : String → String

/-- An `http.ResponseWriter` with the behaviour of net/http (and of
`httptest.ResponseRecorder`): the first `WriteHeader` fixes the status code,
a `Write` before any `WriteHeader` fixes it to 200, and a handler that
returns without either is answered with 200. -/
structure ResponseWriter where
  Code : Nat
  wroteHeader : Bool
  Body : String
deriving DecidableEq, Repr

/-- Go `httptest.NewRecorder()`: nothing written yet. -/
def NewRecorder : ResponseWriter := ⟨200, false, ""⟩

/-- Go `w.WriteHeader(code)`. -/
def ResponseWriter.WriteHeader (w : ResponseWriter) (code : Nat) : ResponseWriter :=
  if w.wroteHeader then w else { w with Code := code, wroteHeader := true }

/-- Go `w.Write([]byte(b))`. -/
def ResponseWriter.Write (w : ResponseWriter) (b : String) : ResponseWriter :=
  let w1 := if w.wroteHeader then w else w.WriteHeader 200
  { w1 with Body := w1.Body ++ b }

/-- The argument of a `Printf` verb. -/
inductive LogArg where
  | str (s : String)
  | bytes (b : Bytes)
deriving DecidableEq, Repr

/-- Go `cloud.SparkStatusCheckIn`, the fields `checkIn` reads.  The types of
`AppExitStatus` and `Status` are declared in package `cloud`; they are the
parameters `E` and `S`. -/
structure SparkStatusCheckIn (E S : Type) where
  ClusterID : String
  AppExitStatus : E
  Status : S
deriving DecidableEq, Repr

/-- One call a handler makes outside its own package. -/
inductive Call (E S : Type) where
  | DebugPrintln (msg : String)
  | InfoPrintln (msg : String)
  | InfoPrintf (format : String) (arg : LogArg)
  | GetLastKnownStatus (clusterID : String)
  | GetClientData (clusterID : String)
  | Create (environment : String) (buffer : Bytes)
  | SetCanceled (clusterID : String)
  | Deserialize (buffer : Bytes)
  | HandleCheckIn (clusterID : String) (appExitStatus : E) (status : S)
deriving DecidableEq, Repr

/-- Is the call `monitor.SetCanceled`? -/
def Call.isSetCanceled {E S : Type} : Call E S → Bool
  | .SetCanceled _ => true
  | _ => false

/-- Is the call `monitor.HandleCheckIn`? -/
def Call.isHandleCheckIn {E S : Type} : Call E S → Bool
  | .HandleCheckIn _ _ _ => true
  | _ => false

/-- Is the call `cloud.Create`? -/
def Call.isCreate {E S : Type} : Call E S → Bool
  | .Create _ _ => true
  | _ => false

/-- Is the call one into package `monitor` or `cloud` (registry or backend)? -/
def Call.isRegistryOrBackend {E S : Type} : Call E S → Bool
  | .GetLastKnownStatus _ => true
  | .GetClientData _ => true
  | .Create _ _ => true
  | .SetCanceled _ => true
  | .HandleCheckIn _ _ _ => true
  | _ => false

/-- What `monitor.GetClientData` returns: `(buffer, environment, err)`. -/
structure ClientData where
  buffer : Bytes
  environment : String
  err : Option String
deriving DecidableEq, Repr

/-- The packages the handlers call, over a world state `σ`.  `Client` is
`cloud.CloudEnvironment`.  `Deserialize buffer` gives the value left in the
zero-initialised target and the error reported. -/
structure World (σ Client E S : Type) where
  GetLastKnownStatus : String → σ → String × σ
  GetClientData : String → σ → ClientData × σ
  SetCanceled : String → σ → σ
  HandleCheckIn : String → E → S → σ → σ
  Create : String → Bytes → σ → (Option Client × Option String) × σ
  Deserialize : Bytes → SparkStatusCheckIn E S × Option String

/-- What a handler leaves behind. -/
structure Outcome (σ E S : Type) where
  w : ResponseWriter
  state : σ
  calls : List (Call E S)

/-- The status code the client receives. -/
def Outcome.status {σ E S : Type} (o : Outcome σ E S) : Nat := o.w.Code

/-- Go `ioutil.ReadAll(r.Body)`. -/
def ReadAll (b : Reader) : Bytes × Option String := (b.data, b.err)

/-- Go `validateRequest` (common.go 14-24). -/
def validateRequest (r : Request) (method : String) : Option String :=
  if r.Method ≠ method then
    some ("invalid request method: " ++ r.Method)
  else if method = "POST" ∧ r.Body.isNone = true then
    some "form body is null"
  else
    none

/-- Go `getStatus` (common.go 26-46). -/
def getStatus {σ Client E S : Type} (W : World σ Client E S) (w : ResponseWriter)
    (r : Request) (s : σ) : Outcome σ E S :=
  let c0 : List (Call E S) := [Call.DebugPrintln "http-request: /status"]
  match validateRequest r "GET" with
  | some err => ⟨(w.WriteHeader StatusBadRequest).Write err, s, c0⟩
  | none =>
    let clusterID := r.FormValue "clusterID"
    if clusterID.length = 0 then
      ⟨(w.WriteHeader StatusBadRequest).Write "clusterID not specified", s, c0⟩
    else
      let c1 := c0 ++ [Call.InfoPrintf "checking status on clusterID %v" (LogArg.str clusterID),
        Call.GetLastKnownStatus clusterID]
      let got := W.GetLastKnownStatus clusterID s
      ⟨(w.WriteHeader StatusOK).Write got.1, got.2, c1⟩

/-- Go `terminate` (common.go 48-89). -/
def terminate {σ Client E S : Type} (W : World σ Client E S) (w : ResponseWriter)
    (r : Request) (environment : String) (s : σ) : Outcome σ E S :=
  match validateRequest r "POST" with
  | some err => ⟨(w.WriteHeader StatusBadRequest).Write err, s, []⟩
  | none =>
    let clusterID := r.PostFormValue "clusterID"
    if clusterID.length = 0 then
      ⟨(w.WriteHeader StatusBadRequest).Write "clusterID not specified", s, []⟩
    else
      let c1 : List (Call E S) :=
        [Call.InfoPrintln ("handling termination request for clusterID: " ++ clusterID),
         Call.GetClientData clusterID]
      let got := W.GetClientData clusterID s
      match got.1.err with
      | some _ =>
        ⟨(w.WriteHeader StatusBadRequest).Write
          ("Unable to retrieve status for clusterID " ++ clusterID), got.2, c1⟩
      | none =>
        if got.1.environment ≠ environment then
          ⟨(w.WriteHeader StatusBadRequest).Write
            ("cloud environment does not match for clusterID " ++ clusterID), got.2, c1⟩
        else
          let c2 := c1 ++ [Call.Create got.1.environment got.1.buffer]
          let made := W.Create got.1.environment got.1.buffer got.2
          match made.1.2 with
          | some _ =>
            ⟨(w.WriteHeader StatusBadRequest).Write
              ("Unable to establish allspark client with clusterID " ++ clusterID), made.2, c2⟩
          | none =>
            ⟨(w.WriteHeader StatusOK).Write "received cluster termination request",
              W.SetCanceled clusterID made.2, c2 ++ [Call.SetCanceled clusterID]⟩

/-- Go `checkIn` (common.go 91-111).  The `err` tested on line 103 is the
variable assigned on line 101 by `ioutil.ReadAll`; line 102 calls
`serializer.Deserialize` as a statement, so what it returns is dropped and
only its effect on `body` is kept.  The `none` branch of `r.Body` is never
reached: `validateRequest r "POST"` has turned a nil body away. -/
def checkIn {σ Client E S : Type} (W : World σ Client E S) (w : ResponseWriter)
    (r : Request) (s : σ) : Outcome σ E S :=
  let c0 : List (Call E S) := [Call.DebugPrintln "http-request: /check-in"]
  match validateRequest r "POST" with
  | some err => ⟨(w.WriteHeader StatusBadRequest).Write err, s, c0⟩
  | none =>
    match r.Body with
    | none => ⟨w, s, c0⟩
    | some rd =>
      let read := ReadAll rd
      let buffer := read.1
      let err := read.2
      let body := (W.Deserialize buffer).1
      let c1 := c0 ++ [Call.Deserialize buffer]
      match err with
      | some e => ⟨(w.WriteHeader StatusBadRequest).Write e, s, c1⟩
      | none =>
        ⟨w, W.HandleCheckIn body.ClusterID body.AppExitStatus body.Status s,
          c1 ++ [Call.InfoPrintf "Form body: %s" (LogArg.bytes buffer),
                 Call.HandleCheckIn body.ClusterID body.AppExitStatus body.Status]⟩

/-- Go `healthCheck` (common.go 113-124). -/
def healthCheck {σ E S : Type} (w : ResponseWriter) (r : Request) (s : σ) : Outcome σ E S :=
  let c0 : List (Call E S) := [Call.DebugPrintln "http-request: /health-check"]
  match validateRequest r "GET" with
  | some err => ⟨(w.WriteHeader StatusBadRequest).Write err, s, c0⟩
  | none => ⟨w.WriteHeader StatusOK, s, c0⟩

/-! ## A concrete world -/

/-- A small registry for evaluating the handlers: cluster `c1` was created on
`aws` from the template bytes `[123, 125]`, cluster `c2` on `docker` from an
empty template the factory turns down, and no other cluster is known.  The
state is the list of the cluster IDs canceled so far.  The serializer reads
the bytes `[123, 125]` as a check-in of `c1` and reports an error on anything
else, leaving the target zero. -/
def sampleWorld : World (List String) Unit Nat String where
  GetLastKnownStatus := fun id s =>
    (if id = "c1" ∨ id = "c2" then (if id ∈ s then "canceled" else "running") else "unknown", s)
  GetClientData := fun id s =>
    (if id = "c1" then ⟨[123, 125], "aws", none⟩
     else if id = "c2" then ⟨[], "docker", none⟩
     else ⟨[], "", some "cluster not found"⟩, s)
  SetCanceled := fun id s => id :: s
  HandleCheckIn := fun _ _ _ s => s
  Create := fun _ b s => (if b = [] then (none, some "empty template") else (some (), none), s)
  Deserialize := fun b =>
    if b = [123, 125] then (⟨"c1", 0, "done"⟩, none) else (⟨"", 0, ""⟩, some "invalid payload")

/-- A request with the given method, body and `clusterID` value (in the query
and in the post form alike). -/
def sampleRequest (method : String) (body : Option Reader) (clusterID : String) : Request :=
  ⟨method, body, fun k => if k = "clusterID" then clusterID else "",
    fun k => if k = "clusterID" then clusterID else ""⟩


/-! ## The registry and the reconciler, from the specification

Package `monitor`, which owns the registry and decides when a backend is
destroyed, is not among the sources: `terminate` only calls
`monitor.GetClientData` and `monitor.SetCanceled`, and drops the backend
`cloud.Create` returns.  What follows models the registry (§3, §4.3), the
backend factory (§4.2) and the lifecycle reconciler (§4.4) of the
specification as a transition system, with the handler `terminate` above as
the termination request. -/

/-- Modelled from the spec: the lifecycle states of a cluster record (§4.3;
package `monitor` is missing), with `DestroyFailed` for the failed-terminal
state in which §4.4 leaves a record once the retries are used up. -/
inductive Status where
  | Provisioning
  | Running
  | CheckedInOk
  | CheckedInFailed
  | CancelRequested
  | Destroying
  | Terminated
  | DestroyFailed
deriving DecidableEq, Repr

/-- Go `len(s) == 0` holds of the empty string only. -/
theorem length_eq_zero_iff_empty (s : String) : s.length = 0 ↔ s = "" := by
  constructor
  · intro h
    have hd : s.data = [] := List.length_eq_zero.mp h
    exact String.ext hd
  · rintro rfl; rfl

/-- When `validateRequest` lets a request through. -/
theorem validateRequest_eq_none_iff (r : Request) (method : String) :
    validateRequest r method = none ↔
      r.Method = method ∧ ¬ (method = "POST" ∧ r.Body = none) := by
  unfold validateRequest
  by_cases h1 : r.Method = method
  · by_cases h2 : method = "POST" <;> cases hb : r.Body <;> simp [h1, h2, hb]
  · simp [h1]

/-- A POST with a body passes the gate of the POST handlers. -/
theorem validateRequest_post_ok (r : Request) (hm : r.Method = "POST") (hb : r.Body ≠ none) :
    validateRequest r "POST" = none := by
  rw [validateRequest_eq_none_iff]; exact ⟨hm, fun h => hb h.2⟩

/-- The gate of the POST handlers lets through the POSTs with a body. -/
theorem validateRequest_post_iff (r : Request) :
    validateRequest r "POST" = none ↔ r.Method = "POST" ∧ r.Body ≠ none := by
  rw [validateRequest_eq_none_iff]
  constructor
  · exact fun h => ⟨h.1, fun hb => h.2 ⟨rfl, hb⟩⟩
  · exact fun h => ⟨h.1, fun hb => h.2 hb.2⟩

/-- The gate of the GET handlers lets through every GET, body or not. -/
theorem validateRequest_get_iff (r : Request) :
    validateRequest r "GET" = none ↔ r.Method = "GET" := by
  rw [validateRequest_eq_none_iff]
  constructor
  · exact fun h => h.1
  · exact fun h => ⟨h, fun h2 => by simp at h2⟩

/-- The error text of the GET handlers for another method. -/
theorem validateRequest_get_err (r : Request) (h : r.Method ≠ "GET") :
    validateRequest r "GET" = some ("invalid request method: " ++ r.Method) := by
  simp [validateRequest, h]

/-- The outcome of `terminate` when the request does not pass `validateRequest`. -/
theorem terminate_of_invalid {σ Client E S : Type} (W : World σ Client E S) (r : Request)
    (environment : String) (s : σ) (e : String) (hv : validateRequest r "POST" = some e) :
    terminate W NewRecorder r environment s = ⟨⟨400, true, e⟩, s, []⟩ := by
  simp [terminate, hv, ResponseWriter.Write, ResponseWriter.WriteHeader, NewRecorder,
    StatusBadRequest]

/-- The outcome of `terminate` when the post form has no clusterID. -/
theorem terminate_of_empty_id {σ Client E S : Type} (W : World σ Client E S) (r : Request)
    (environment : String) (s : σ) (hv : validateRequest r "POST" = none)
    (hid : r.PostFormValue "clusterID" = "") :
    terminate W NewRecorder r environment s =
      ⟨⟨400, true, "clusterID not specified"⟩, s, []⟩ := by
  simp [terminate, hv, hid, ResponseWriter.Write, ResponseWriter.WriteHeader, NewRecorder,
    StatusBadRequest]

/-- The outcome of `terminate` when `monitor.GetClientData` returns an error. -/
theorem terminate_of_lookup_err {σ Client E S : Type} (W : World σ Client E S) (r : Request)
    (environment : String) (s : σ) (hv : validateRequest r "POST" = none)
    (hid : r.PostFormValue "clusterID" ≠ "")
    (herr : (W.GetClientData (r.PostFormValue "clusterID") s).1.err ≠ none) :
    terminate W NewRecorder r environment s =
      ⟨⟨400, true, "Unable to retrieve status for clusterID " ++ r.PostFormValue "clusterID"⟩,
        (W.GetClientData (r.PostFormValue "clusterID") s).2,
        [Call.InfoPrintln ("handling termination request for clusterID: " ++
            r.PostFormValue "clusterID"),
         Call.GetClientData (r.PostFormValue "clusterID")]⟩ := by
  have hl : ¬ (r.PostFormValue "clusterID").length = 0 := by
    rw [length_eq_zero_iff_empty]; exact hid
  cases he : (W.GetClientData (r.PostFormValue "clusterID") s).1.err with
  | none => exact absurd he herr
  | some e =>
    simp [terminate, hv, hl, he, ResponseWriter.Write, ResponseWriter.WriteHeader, NewRecorder,
      StatusBadRequest]

/-- The outcome of `terminate` when the stored environment differs from the one of the
handler. -/
theorem terminate_of_mismatch {σ Client E S : Type} (W : World σ Client E S) (r : Request)
    (environment : String) (s : σ) (hv : validateRequest r "POST" = none)
    (hid : r.PostFormValue "clusterID" ≠ "")
    (hok : (W.GetClientData (r.PostFormValue "clusterID") s).1.err = none)
    (hne : (W.GetClientData (r.PostFormValue "clusterID") s).1.environment ≠ environment) :
    terminate W NewRecorder r environment s =
      ⟨⟨400, true, "cloud environment does not match for clusterID " ++
          r.PostFormValue "clusterID"⟩,
        (W.GetClientData (r.PostFormValue "clusterID") s).2,
        [Call.InfoPrintln ("handling termination request for clusterID: " ++
            r.PostFormValue "clusterID"),
         Call.GetClientData (r.PostFormValue "clusterID")]⟩ := by
  have hl : ¬ (r.PostFormValue "clusterID").length = 0 := by
    rw [length_eq_zero_iff_empty]; exact hid
  simp [terminate, hv, hl, hok, hne, ResponseWriter.Write, ResponseWriter.WriteHeader,
    NewRecorder, StatusBadRequest]

/-- The outcome of `terminate` when `cloud.Create` returns an error on the stored data. -/
theorem terminate_of_create_err {σ Client E S : Type} (W : World σ Client E S) (r : Request)
    (environment : String) (s : σ) (hv : validateRequest r "POST" = none)
    (hid : r.PostFormValue "clusterID" ≠ "")
    (hok : (W.GetClientData (r.PostFormValue "clusterID") s).1.err = none)
    (heq : (W.GetClientData (r.PostFormValue "clusterID") s).1.environment = environment)
    (hmk : (W.Create (W.GetClientData (r.PostFormValue "clusterID") s).1.environment
      (W.GetClientData (r.PostFormValue "clusterID") s).1.buffer
      (W.GetClientData (r.PostFormValue "clusterID") s).2).1.2 ≠ none) :
    terminate W NewRecorder r environment s =
      ⟨⟨400, true, "Unable to establish allspark client with clusterID " ++
          r.PostFormValue "clusterID"⟩,
        (W.Create (W.GetClientData (r.PostFormValue "clusterID") s).1.environment
          (W.GetClientData (r.PostFormValue "clusterID") s).1.buffer
          (W.GetClientData (r.PostFormValue "clusterID") s).2).2,
        [Call.InfoPrintln ("handling termination request for clusterID: " ++
            r.PostFormValue "clusterID"),
         Call.GetClientData (r.PostFormValue "clusterID"),
         Call.Create (W.GetClientData (r.PostFormValue "clusterID") s).1.environment
           (W.GetClientData (r.PostFormValue "clusterID") s).1.buffer]⟩ := by
  have hl : ¬ (r.PostFormValue "clusterID").length = 0 := by
    rw [length_eq_zero_iff_empty]; exact hid
  subst heq
  cases he : (W.Create (W.GetClientData (r.PostFormValue "clusterID") s).1.environment
      (W.GetClientData (r.PostFormValue "clusterID") s).1.buffer
      (W.GetClientData (r.PostFormValue "clusterID") s).2).1.2 with
  | none => exact absurd he hmk
  | some e =>
    simp [terminate, hv, hl, hok, he, ResponseWriter.Write, ResponseWriter.WriteHeader,
      NewRecorder, StatusBadRequest]

/-- The outcome of `terminate` when every check passes. -/
theorem terminate_of_accept {σ Client E S : Type} (W : World σ Client E S) (r : Request)
    (environment : String) (s : σ) (hv : validateRequest r "POST" = none)
    (hid : r.PostFormValue "clusterID" ≠ "")
    (hok : (W.GetClientData (r.PostFormValue "clusterID") s).1.err = none)
    (heq : (W.GetClientData (r.PostFormValue "clusterID") s).1.environment = environment)
    (hmk : (W.Create (W.GetClientData (r.PostFormValue "clusterID") s).1.environment
      (W.GetClientData (r.PostFormValue "clusterID") s).1.buffer
      (W.GetClientData (r.PostFormValue "clusterID") s).2).1.2 = none) :
    terminate W NewRecorder r environment s =
      ⟨⟨200, true, "received cluster termination request"⟩,
        W.SetCanceled (r.PostFormValue "clusterID")
          (W.Create (W.GetClientData (r.PostFormValue "clusterID") s).1.environment
            (W.GetClientData (r.PostFormValue "clusterID") s).1.buffer
            (W.GetClientData (r.PostFormValue "clusterID") s).2).2,
        [Call.InfoPrintln ("handling termination request for clusterID: " ++
            r.PostFormValue "clusterID"),
         Call.GetClientData (r.PostFormValue "clusterID"),
         Call.Create (W.GetClientData (r.PostFormValue "clusterID") s).1.environment
           (W.GetClientData (r.PostFormValue "clusterID") s).1.buffer,
         Call.SetCanceled (r.PostFormValue "clusterID")]⟩ := by
  have hl : ¬ (r.PostFormValue "clusterID").length = 0 := by
    rw [length_eq_zero_iff_empty]; exact hid
  subst heq
  simp [terminate, hv, hl, hok, hmk, ResponseWriter.Write, ResponseWriter.WriteHeader,
    NewRecorder, StatusOK]

/-- Whatever the request and the world, `terminate` answers 200 or 400. -/
theorem terminate_status_ok_or_bad_request {σ Client E S : Type} (W : World σ Client E S)
    (r : Request) (environment : String) (s : σ) :
    (terminate W NewRecorder r environment s).status = 200 ∨
    (terminate W NewRecorder r environment s).status = 400 := by
  cases hv : validateRequest r "POST" with
  | some e => right; rw [terminate_of_invalid W r environment s e hv]; rfl
  | none =>
    by_cases hid : r.PostFormValue "clusterID" = ""
    · right; rw [terminate_of_empty_id W r environment s hv hid]; rfl
    · by_cases hok : (W.GetClientData (r.PostFormValue "clusterID") s).1.err = none
      · by_cases heq : (W.GetClientData (r.PostFormValue "clusterID") s).1.environment
            = environment
        · by_cases hmk : (W.Create (W.GetClientData (r.PostFormValue "clusterID") s).1.environment
              (W.GetClientData (r.PostFormValue "clusterID") s).1.buffer
              (W.GetClientData (r.PostFormValue "clusterID") s).2).1.2 = none
          · left; rw [terminate_of_accept W r environment s hv hid hok heq hmk]; rfl
          · right; rw [terminate_of_create_err W r environment s hv hid hok heq hmk]; rfl
        · right; rw [terminate_of_mismatch W r environment s hv hid hok heq]; rfl
      · right; rw [terminate_of_lookup_err W r environment s hv hid hok]; rfl

/-- The outcome of `getStatus` when the request does not pass `validateRequest`. -/
theorem getStatus_of_invalid {σ Client E S : Type} (W : World σ Client E S) (r : Request)
    (s : σ) (e : String) (hv : validateRequest r "GET" = some e) :
    getStatus W NewRecorder r s =
      ⟨⟨400, true, e⟩, s, [Call.DebugPrintln "http-request: /status"]⟩ := by
  simp [getStatus, hv, ResponseWriter.Write, ResponseWriter.WriteHeader, NewRecorder,
    StatusBadRequest]

/-- The outcome of `getStatus` when the form has no clusterID. -/
theorem getStatus_of_empty_id {σ Client E S : Type} (W : World σ Client E S) (r : Request)
    (s : σ) (hv : validateRequest r "GET" = none) (hid : r.FormValue "clusterID" = "") :
    getStatus W NewRecorder r s =
      ⟨⟨400, true, "clusterID not specified"⟩, s,
        [Call.DebugPrintln "http-request: /status"]⟩ := by
  simp [getStatus, hv, hid, ResponseWriter.Write, ResponseWriter.WriteHeader, NewRecorder,
    StatusBadRequest]

/-- The outcome of `getStatus` on a GET request that names a cluster. -/
theorem getStatus_of_named {σ Client E S : Type} (W : World σ Client E S) (r : Request)
    (s : σ) (hv : validateRequest r "GET" = none) (hid : r.FormValue "clusterID" ≠ "") :
    getStatus W NewRecorder r s =
      ⟨⟨200, true, (W.GetLastKnownStatus (r.FormValue "clusterID") s).1⟩,
        (W.GetLastKnownStatus (r.FormValue "clusterID") s).2,
        [Call.DebugPrintln "http-request: /status",
         Call.InfoPrintf "checking status on clusterID %v" (LogArg.str (r.FormValue "clusterID")),
         Call.GetLastKnownStatus (r.FormValue "clusterID")]⟩ := by
  have hl : ¬ (r.FormValue "clusterID").length = 0 := by
    rw [length_eq_zero_iff_empty]; exact hid
  simp [getStatus, hv, hl, ResponseWriter.Write, ResponseWriter.WriteHeader, NewRecorder,
    StatusOK]

/-- The outcome of `checkIn` when the request does not pass `validateRequest`. -/
theorem checkIn_of_invalid {σ Client E S : Type} (W : World σ Client E S) (r : Request)
    (s : σ) (e : String) (hv : validateRequest r "POST" = some e) :
    checkIn W NewRecorder r s =
      ⟨⟨400, true, e⟩, s, [Call.DebugPrintln "http-request: /check-in"]⟩ := by
  simp [checkIn, hv, ResponseWriter.Write, ResponseWriter.WriteHeader, NewRecorder,
    StatusBadRequest]

/-- The outcome of `checkIn` on a POST whose body is read to its end without an error: the
check-in is handed to the monitor with whatever `Deserialize` left in the
target, and nothing is written to the response. -/
theorem checkIn_of_read_ok {σ Client E S : Type} (W : World σ Client E S) (r : Request)
    (s : σ) (rd : Reader) (hm : r.Method = "POST") (hb : r.Body = some rd)
    (hrd : rd.err = none) :
    checkIn W NewRecorder r s =
      ⟨NewRecorder,
        W.HandleCheckIn (W.Deserialize rd.data).1.ClusterID
          (W.Deserialize rd.data).1.AppExitStatus (W.Deserialize rd.data).1.Status s,
        [Call.DebugPrintln "http-request: /check-in", Call.Deserialize rd.data,
         Call.InfoPrintf "Form body: %s" (LogArg.bytes rd.data),
         Call.HandleCheckIn (W.Deserialize rd.data).1.ClusterID
          (W.Deserialize rd.data).1.AppExitStatus (W.Deserialize rd.data).1.Status]⟩ := by
  have hv : validateRequest r "POST" = none :=
    validateRequest_post_ok r hm (by rw [hb]; simp)
  simp [checkIn, hv, hb, ReadAll, hrd]

/-- The outcome of `healthCheck` when the request does not pass `validateRequest`. -/
theorem healthCheck_of_invalid {σ E S : Type} (r : Request) (s : σ) (e : String)
    (hv : validateRequest r "GET" = some e) :
    (healthCheck NewRecorder r s : Outcome σ E S) =
      ⟨⟨400, true, e⟩, s, [Call.DebugPrintln "http-request: /health-check"]⟩ := by
  simp [healthCheck, hv, ResponseWriter.Write, ResponseWriter.WriteHeader, NewRecorder,
    StatusBadRequest]

/-- The outcome of `healthCheck` on a GET request. -/
theorem healthCheck_of_get {σ E S : Type} (r : Request) (s : σ)
    (hv : validateRequest r "GET" = none) :
    (healthCheck NewRecorder r s : Outcome σ E S) =
      ⟨⟨200, true, ""⟩, s, [Call.DebugPrintln "http-request: /health-check"]⟩ := by
  simp [healthCheck, hv, ResponseWriter.WriteHeader, NewRecorder, StatusOK]

/-! ## The registry model: helper lemmas -/

/-- C1. A POST with a body and a non-empty clusterID, for a cluster the
registry knows under another environment than the handler's, is answered 400
with the mismatch text; `terminate` calls neither `monitor.SetCanceled` nor
`cloud.Create`, and the world is left as the lookup left it. -/
theorem terminate_mismatch_rejected {σ Client E S : Type} (W : World σ Client E S)
    (r : Request) (environment : String) (s : σ)
    (hm : r.Method = "POST") (hb : r.Body ≠ none) (hid : r.PostFormValue "clusterID" ≠ "")
    (hok : (W.GetClientData (r.PostFormValue "clusterID") s).1.err = none)
    (hne : (W.GetClientData (r.PostFormValue "clusterID") s).1.environment ≠ environment) :
    (terminate W NewRecorder r environment s).status = 400 ∧
    (terminate W NewRecorder r environment s).w.Body =
      "cloud environment does not match for clusterID " ++ r.PostFormValue "clusterID" ∧
    (∀ c ∈ (terminate W NewRecorder r environment s).calls,
      c.isSetCanceled = false ∧ c.isCreate = false) ∧
    (terminate W NewRecorder r environment s).state =
      (W.GetClientData (r.PostFormValue "clusterID") s).2 := by
  rw [terminate_of_mismatch W r environment s (validateRequest_post_ok r hm hb) hid hok hne]
  simp [Outcome.status, Call.isSetCanceled, Call.isCreate]

/-- Witness of C1: cluster `c1` lives on `aws` and is asked to terminate through
the `docker` handler. -/
theorem terminate_mismatch_rejected_witness :
    (terminate sampleWorld NewRecorder (sampleRequest "POST" (some ⟨[], none⟩) "c1")
      "docker" []).status = 400 ∧
    (terminate sampleWorld NewRecorder (sampleRequest "POST" (some ⟨[], none⟩) "c1")
      "docker" []).w.Body = "cloud environment does not match for clusterID " ++
        (sampleRequest "POST" (some ⟨[], none⟩) "c1").PostFormValue "clusterID" ∧
    (∀ c ∈ (terminate sampleWorld NewRecorder (sampleRequest "POST" (some ⟨[], none⟩) "c1")
      "docker" []).calls, c.isSetCanceled = false ∧ c.isCreate = false) ∧
    (terminate sampleWorld NewRecorder (sampleRequest "POST" (some ⟨[], none⟩) "c1")
      "docker" []).state =
      (sampleWorld.GetClientData
        ((sampleRequest "POST" (some ⟨[], none⟩) "c1").PostFormValue "clusterID") []).2 :=
  terminate_mismatch_rejected sampleWorld (sampleRequest "POST" (some ⟨[], none⟩) "c1")
    "docker" [] (by decide) (by simp [sampleRequest]) (by decide) (by decide) (by decide)

/-- C2. A POST with a body and a non-empty clusterID, for a cluster the
registry knows under the handler's environment and whose stored template the
factory accepts, is answered 200 with the acceptance text.  The calls are, in
order: the log line, the lookup of that clusterID, `cloud.Create` on the
stored environment and the stored buffer, and `monitor.SetCanceled` on that
clusterID, which is the one `SetCanceled` call made; the world is left as
`SetCanceled` leaves it after the lookup and the factory. -/
theorem terminate_accepted {σ Client E S : Type} (W : World σ Client E S)
    (r : Request) (environment : String) (s : σ)
    (hm : r.Method = "POST") (hb : r.Body ≠ none) (hid : r.PostFormValue "clusterID" ≠ "")
    (hok : (W.GetClientData (r.PostFormValue "clusterID") s).1.err = none)
    (heq : (W.GetClientData (r.PostFormValue "clusterID") s).1.environment = environment)
    (hmk : (W.Create (W.GetClientData (r.PostFormValue "clusterID") s).1.environment
      (W.GetClientData (r.PostFormValue "clusterID") s).1.buffer
      (W.GetClientData (r.PostFormValue "clusterID") s).2).1.2 = none) :
    (terminate W NewRecorder r environment s).status = 200 ∧
    (terminate W NewRecorder r environment s).w.Body = "received cluster termination request" ∧
    (terminate W NewRecorder r environment s).calls =
      [Call.InfoPrintln ("handling termination request for clusterID: " ++
          r.PostFormValue "clusterID"),
       Call.GetClientData (r.PostFormValue "clusterID"),
       Call.Create (W.GetClientData (r.PostFormValue "clusterID") s).1.environment
         (W.GetClientData (r.PostFormValue "clusterID") s).1.buffer,
       Call.SetCanceled (r.PostFormValue "clusterID")] ∧
    (terminate W NewRecorder r environment s).calls.filter Call.isSetCanceled =
      [Call.SetCanceled (r.PostFormValue "clusterID")] ∧
    (terminate W NewRecorder r environment s).state =
      W.SetCanceled (r.PostFormValue "clusterID")
        (W.Create (W.GetClientData (r.PostFormValue "clusterID") s).1.environment
          (W.GetClientData (r.PostFormValue "clusterID") s).1.buffer
          (W.GetClientData (r.PostFormValue "clusterID") s).2).2 := by
  rw [terminate_of_accept W r environment s (validateRequest_post_ok r hm hb) hid hok heq hmk]
  simp [Outcome.status, Call.isSetCanceled, List.filter]

/-- Witness of C2: cluster `c1` is asked to terminate through the `aws`
handler; the state afterwards lists `c1` as canceled. -/
theorem terminate_accepted_witness :
    (terminate sampleWorld NewRecorder (sampleRequest "POST" (some ⟨[], none⟩) "c1")
      "aws" []).status = 200 ∧
    (terminate sampleWorld NewRecorder (sampleRequest "POST" (some ⟨[], none⟩) "c1")
      "aws" []).calls =
      [Call.InfoPrintln "handling termination request for clusterID: c1",
       Call.GetClientData "c1", Call.Create "aws" [123, 125], Call.SetCanceled "c1"] ∧
    (terminate sampleWorld NewRecorder (sampleRequest "POST" (some ⟨[], none⟩) "c1")
      "aws" []).state = ["c1"] := by
  have h := terminate_accepted sampleWorld (sampleRequest "POST" (some ⟨[], none⟩) "c1")
    "aws" [] (by decide) (by simp [sampleRequest]) (by decide) (by decide) (by decide)
    (by decide)
  exact ⟨h.1, by decide, by decide⟩

/-- C3. A POST with a body and a non-empty clusterID for which
`monitor.GetClientData` returns an error is answered 400 (so not 200) with the
text `Unable to retrieve status for clusterID <id>`, whatever the handler's
environment; `terminate` calls neither `cloud.Create` nor
`monitor.SetCanceled`, and the world is left as the lookup left it. -/
theorem terminate_unknown_cluster {σ Client E S : Type} (W : World σ Client E S)
    (r : Request) (environment : String) (s : σ)
    (hm : r.Method = "POST") (hb : r.Body ≠ none) (hid : r.PostFormValue "clusterID" ≠ "")
    (herr : (W.GetClientData (r.PostFormValue "clusterID") s).1.err ≠ none) :
    (terminate W NewRecorder r environment s).status = 400 ∧
    (terminate W NewRecorder r environment s).status ≠ 200 ∧
    (terminate W NewRecorder r environment s).w.Body =
      "Unable to retrieve status for clusterID " ++ r.PostFormValue "clusterID" ∧
    (∀ c ∈ (terminate W NewRecorder r environment s).calls,
      c.isCreate = false ∧ c.isSetCanceled = false) ∧
    (terminate W NewRecorder r environment s).state =
      (W.GetClientData (r.PostFormValue "clusterID") s).2 := by
  rw [terminate_of_lookup_err W r environment s (validateRequest_post_ok r hm hb) hid herr]
  simp [Outcome.status, Call.isSetCanceled, Call.isCreate]

/-- Witness of C3: cluster `nope` is not in the registry. -/
theorem terminate_unknown_cluster_witness :
    (terminate sampleWorld NewRecorder (sampleRequest "POST" (some ⟨[], none⟩) "nope")
      "aws" []).status = 400 ∧
    (terminate sampleWorld NewRecorder (sampleRequest "POST" (some ⟨[], none⟩) "nope")
      "aws" []).w.Body = "Unable to retrieve status for clusterID nope" ∧
    (terminate sampleWorld NewRecorder (sampleRequest "POST" (some ⟨[], none⟩) "nope")
      "aws" []).state = [] := by
  have h := terminate_unknown_cluster sampleWorld
    (sampleRequest "POST" (some ⟨[], none⟩) "nope") "aws" [] (by decide)
    (by simp [sampleRequest]) (by decide) (by decide)
  exact ⟨h.1, by decide, by decide⟩

/-- C6. `terminate` calls `monitor.SetCanceled` exactly when the method is
POST, the body is not nil, the clusterID of the post form is not empty,
`monitor.GetClientData` succeeds, the stored environment is the handler's and
`cloud.Create` on the stored data succeeds; that is exactly when the status
is 200.  The status is 200 or 400.  With status 400 no `SetCanceled` and no
`HandleCheckIn` call was made and the world is as the request found it, or as
the lookup or the factory left it.  A factory failure is answered 400 with
the text `Unable to establish allspark client with clusterID <id>`. -/
theorem terminate_fail_closed {σ Client E S : Type} (W : World σ Client E S)
    (r : Request) (environment : String) (s : σ) :
    ((∃ c ∈ (terminate W NewRecorder r environment s).calls, c.isSetCanceled = true) ↔
      (r.Method = "POST" ∧ r.Body ≠ none ∧ r.PostFormValue "clusterID" ≠ "" ∧
        (W.GetClientData (r.PostFormValue "clusterID") s).1.err = none ∧
        (W.GetClientData (r.PostFormValue "clusterID") s).1.environment = environment ∧
        (W.Create (W.GetClientData (r.PostFormValue "clusterID") s).1.environment
          (W.GetClientData (r.PostFormValue "clusterID") s).1.buffer
          (W.GetClientData (r.PostFormValue "clusterID") s).2).1.2 = none)) ∧
    ((∃ c ∈ (terminate W NewRecorder r environment s).calls, c.isSetCanceled = true) ↔
      (terminate W NewRecorder r environment s).status = 200) ∧
    ((terminate W NewRecorder r environment s).status = 200 ∨
      (terminate W NewRecorder r environment s).status = 400) ∧
    ((terminate W NewRecorder r environment s).status = 400 →
      (∀ c ∈ (terminate W NewRecorder r environment s).calls,
        c.isSetCanceled = false ∧ c.isHandleCheckIn = false) ∧
      ((terminate W NewRecorder r environment s).state = s ∨
       (terminate W NewRecorder r environment s).state =
          (W.GetClientData (r.PostFormValue "clusterID") s).2 ∨
       (terminate W NewRecorder r environment s).state =
          (W.Create (W.GetClientData (r.PostFormValue "clusterID") s).1.environment
            (W.GetClientData (r.PostFormValue "clusterID") s).1.buffer
            (W.GetClientData (r.PostFormValue "clusterID") s).2).2)) ∧
    ((r.Method = "POST" ∧ r.Body ≠ none ∧ r.PostFormValue "clusterID" ≠ "" ∧
        (W.GetClientData (r.PostFormValue "clusterID") s).1.err = none ∧
        (W.GetClientData (r.PostFormValue "clusterID") s).1.environment = environment ∧
        (W.Create (W.GetClientData (r.PostFormValue "clusterID") s).1.environment
          (W.GetClientData (r.PostFormValue "clusterID") s).1.buffer
          (W.GetClientData (r.PostFormValue "clusterID") s).2).1.2 ≠ none) →
      (terminate W NewRecorder r environment s).status = 400 ∧
      (terminate W NewRecorder r environment s).w.Body =
        "Unable to establish allspark client with clusterID " ++
          r.PostFormValue "clusterID") := by
  cases hv : validateRequest r "POST" with
  | some e =>
    have hnv : ¬ (r.Method = "POST" ∧ r.Body ≠ none) := by
      rw [← validateRequest_post_iff, hv]; simp
    rw [terminate_of_invalid W r environment s e hv]
    simp [Outcome.status]
    constructor
    · intro h1 h2; exact absurd ⟨h1, h2⟩ hnv
    · intro h1 h2; exact absurd ⟨h1, h2⟩ hnv
  | none =>
    have hmb := (validateRequest_post_iff r).mp hv
    by_cases hid : r.PostFormValue "clusterID" = ""
    · rw [terminate_of_empty_id W r environment s hv hid]
      simp [Outcome.status, hid]
    · by_cases hok : (W.GetClientData (r.PostFormValue "clusterID") s).1.err = none
      · by_cases heq : (W.GetClientData (r.PostFormValue "clusterID") s).1.environment
            = environment
        · by_cases hmk : (W.Create (W.GetClientData (r.PostFormValue "clusterID") s).1.environment
              (W.GetClientData (r.PostFormValue "clusterID") s).1.buffer
              (W.GetClientData (r.PostFormValue "clusterID") s).2).1.2 = none
          · rw [terminate_of_accept W r environment s hv hid hok heq hmk]
            subst heq
            simp [Outcome.status, Call.isSetCanceled, hmb.1, hmb.2, hid, hok, hmk]
          · rw [terminate_of_create_err W r environment s hv hid hok heq hmk]
            subst heq
            simp [Outcome.status, Call.isSetCanceled, Call.isHandleCheckIn, hmb.1, hmb.2, hid,
              hok, hmk]
        · rw [terminate_of_mismatch W r environment s hv hid hok heq]
          simp [Outcome.status, Call.isSetCanceled, Call.isHandleCheckIn, hmb.1, hmb.2, hid,
            hok, heq]
      · rw [terminate_of_lookup_err W r environment s hv hid hok]
        simp [Outcome.status, Call.isSetCanceled, Call.isHandleCheckIn, hmb.1, hmb.2, hid, hok]

/-- Witness of C6: the template stored for cluster `c2` is turned down by the
factory, so the request through the matching `docker` handler is answered
400 with no `SetCanceled` call, and the list of canceled clusters stays
empty. -/
theorem terminate_fail_closed_witness :
    (terminate sampleWorld NewRecorder (sampleRequest "POST" (some ⟨[], none⟩) "c2")
      "docker" []).status = 400 ∧
    (terminate sampleWorld NewRecorder (sampleRequest "POST" (some ⟨[], none⟩) "c2")
      "docker" []).w.Body = "Unable to establish allspark client with clusterID c2" ∧
    (∀ c ∈ (terminate sampleWorld NewRecorder (sampleRequest "POST" (some ⟨[], none⟩) "c2")
      "docker" []).calls, c.isSetCanceled = false ∧ c.isHandleCheckIn = false) ∧
    (terminate sampleWorld NewRecorder (sampleRequest "POST" (some ⟨[], none⟩) "c2")
      "docker" []).state = [] := by
  have h := terminate_fail_closed sampleWorld (sampleRequest "POST" (some ⟨[], none⟩) "c2")
    "docker" []
  have h5 := h.2.2.2.2 ⟨by decide, by simp [sampleRequest], by decide, by decide, by decide,
    by decide⟩
  exact ⟨h5.1, by decide, (h.2.2.2.1 h5.1).1, by decide⟩

/-- C7. Evaluation at the scenario of the tests: cluster `c1` is in the
registry under `aws`, its stored template is accepted by the factory, and a
POST carrying `clusterID=c1` comes in through the `aws` handler.  `terminate`
answers 200, not 503 (`http.StatusServiceUnavailable`). -/
theorem terminate_matching_environment_is_200 :
    (terminate sampleWorld NewRecorder
      (sampleRequest "POST" (some ⟨[99, 108, 117, 115, 116, 101, 114, 73, 68, 61, 99, 49], none⟩)
        "c1") "aws" []).status = 200 ∧
    (terminate sampleWorld NewRecorder
      (sampleRequest "POST" (some ⟨[99, 108, 117, 115, 116, 101, 114, 73, 68, 61, 99, 49], none⟩)
        "c1") "aws" []).status ≠ StatusServiceUnavailable ∧
    (terminate sampleWorld NewRecorder
      (sampleRequest "POST" (some ⟨[99, 108, 117, 115, 116, 101, 114, 73, 68, 61, 99, 49], none⟩)
        "c1") "aws" []).w.Body = "received cluster termination request" := by
  decide

/-! ## Status queries -/

/-- C4, as amended.  A GET request carrying a non-empty clusterID is answered
200 with the text `monitor.GetLastKnownStatus` returns for it, whether the
registry knows the cluster or not: `getStatus` makes that one call into the
monitor and has no error answer for an unknown cluster. -/
theorem getStatus_named_cluster_is_200 {σ Client E S : Type} (W : World σ Client E S)
    (r : Request) (s : σ) (hm : r.Method = "GET") (hid : r.FormValue "clusterID" ≠ "") :
    (getStatus W NewRecorder r s).status = 200 ∧
    (getStatus W NewRecorder r s).w.Body = (W.GetLastKnownStatus (r.FormValue "clusterID") s).1 ∧
    (getStatus W NewRecorder r s).calls =
      [Call.DebugPrintln "http-request: /status",
       Call.InfoPrintf "checking status on clusterID %v" (LogArg.str (r.FormValue "clusterID")),
       Call.GetLastKnownStatus (r.FormValue "clusterID")] := by
  rw [getStatus_of_named W r s ((validateRequest_get_iff r).mpr hm) hid]
  simp [Outcome.status]

/-- Witness of C4 as amended: the status of the known cluster `c1`. -/
theorem getStatus_named_cluster_is_200_witness :
    (getStatus sampleWorld NewRecorder (sampleRequest "GET" none "c1") []).status = 200 ∧
    (getStatus sampleWorld NewRecorder (sampleRequest "GET" none "c1") []).w.Body = "running" := by
  have h := getStatus_named_cluster_is_200 sampleWorld (sampleRequest "GET" none "c1") []
    (by decide) (by decide)
  exact ⟨h.1, by decide⟩

/-- C4, the claim as written fails: cluster `test` is not in the registry (the
lookup `monitor.GetClientData` returns an error for it), and the GET request
`/getStatus?clusterID=test` is answered 200 with the status text. -/
theorem getStatus_unknown_cluster_is_200 :
    (sampleWorld.GetClientData "test" []).1.err = some "cluster not found" ∧
    (getStatus sampleWorld NewRecorder (sampleRequest "GET" none "test") []).status = 200 ∧
    (getStatus sampleWorld NewRecorder (sampleRequest "GET" none "test") []).w.Body =
      "unknown" := by
  decide

/-- C5, as amended.  `getStatus` answers 200 exactly when the method is GET
and the clusterID form value is not empty, and then the body is what
`monitor.GetLastKnownStatus` returns for that clusterID.  Any other request
is answered 400: with the method error text when the method is not GET
(whatever its clusterID), with `clusterID not specified` when the method is
GET and the clusterID is empty.  No call of `getStatus` is `SetCanceled` or
`HandleCheckIn`. -/
theorem getStatus_response {σ Client E S : Type} (W : World σ Client E S)
    (r : Request) (s : σ) :
    ((getStatus W NewRecorder r s).status = 200 ↔
      (r.Method = "GET" ∧ r.FormValue "clusterID" ≠ "")) ∧
    ((r.Method = "GET" ∧ r.FormValue "clusterID" ≠ "") →
      (getStatus W NewRecorder r s).w.Body =
        (W.GetLastKnownStatus (r.FormValue "clusterID") s).1) ∧
    ((r.Method ≠ "GET" ∨ r.FormValue "clusterID" = "") →
      (getStatus W NewRecorder r s).status = 400) ∧
    (r.Method ≠ "GET" →
      (getStatus W NewRecorder r s).w.Body = "invalid request method: " ++ r.Method) ∧
    ((r.Method = "GET" ∧ r.FormValue "clusterID" = "") →
      (getStatus W NewRecorder r s).w.Body = "clusterID not specified") ∧
    (∀ c ∈ (getStatus W NewRecorder r s).calls,
      c.isSetCanceled = false ∧ c.isHandleCheckIn = false) := by
  by_cases hm : r.Method = "GET"
  · have hv := (validateRequest_get_iff r).mpr hm
    by_cases hid : r.FormValue "clusterID" = ""
    · rw [getStatus_of_empty_id W r s hv hid]
      simp [Outcome.status, hm, hid, Call.isSetCanceled, Call.isHandleCheckIn]
    · rw [getStatus_of_named W r s hv hid]
      simp [Outcome.status, hm, hid, Call.isSetCanceled, Call.isHandleCheckIn]
  · rw [getStatus_of_invalid W r s _ (validateRequest_get_err r hm)]
    simp [Outcome.status, hm, Call.isSetCanceled, Call.isHandleCheckIn]

/-- C5, the claim as written fails: the POST request `/getStatus` of
`TestGetStatus` carries no clusterID, and it is answered 400 with the method
error text, not with `clusterID not specified`; the method is tested first
(common.go 28-33). -/
theorem getStatus_post_without_id_body :
    (sampleRequest "POST" none "").FormValue "clusterID" = "" ∧
    (getStatus sampleWorld NewRecorder (sampleRequest "POST" none "") []).status = 400 ∧
    (getStatus sampleWorld NewRecorder (sampleRequest "POST" none "") []).w.Body =
      "invalid request method: POST" ∧
    (getStatus sampleWorld NewRecorder (sampleRequest "POST" none "") []).w.Body ≠
      "clusterID not specified" := by
  decide

/-- Witness of C5 as amended: the three requests of `TestGetStatus`. -/
theorem getStatus_response_witness :
    (getStatus sampleWorld NewRecorder (sampleRequest "POST" none "") []).status = 400 ∧
    (getStatus sampleWorld NewRecorder (sampleRequest "GET" none "") []).w.Body =
      "clusterID not specified" ∧
    (getStatus sampleWorld NewRecorder (sampleRequest "GET" none "test") []).w.Body =
      (sampleWorld.GetLastKnownStatus
        ((sampleRequest "GET" none "test").FormValue "clusterID") []).1 :=
  ⟨(getStatus_response sampleWorld (sampleRequest "POST" none "") []).2.2.1
      (Or.inl (by decide)),
   (getStatus_response sampleWorld (sampleRequest "GET" none "") []).2.2.2.2.1
      ⟨by decide, by decide⟩,
   (getStatus_response sampleWorld (sampleRequest "GET" none "test") []).2.1
      ⟨by decide, by decide⟩⟩

/-! ## The request-validation gate -/

/-- C8. `validateRequest r method` returns an error exactly when `r.Method`
is not `method`, or `method` is `POST` and `r.Body` is nil.  When it returns
the error `e`, each of `getStatus`, `healthCheck` (for GET), `terminate` and
`checkIn` (for POST) answers 400 with body `e`, leaves the world as it was
and makes no call into the registry or the backend.  `healthCheck` answers
200 exactly when the method is GET. -/
theorem validateRequest_gate {σ Client E S : Type} (W : World σ Client E S)
    (r : Request) (method environment : String) (s : σ) :
    (validateRequest r method ≠ none ↔
      (r.Method ≠ method ∨ (method = "POST" ∧ r.Body = none))) ∧
    (∀ e, validateRequest r "GET" = some e →
      (getStatus W NewRecorder r s).w = ⟨400, true, e⟩ ∧
      (getStatus W NewRecorder r s).state = s ∧
      ∀ c ∈ (getStatus W NewRecorder r s).calls, c.isRegistryOrBackend = false) ∧
    (∀ e, validateRequest r "GET" = some e →
      (healthCheck NewRecorder r s : Outcome σ E S).w = ⟨400, true, e⟩ ∧
      (healthCheck NewRecorder r s : Outcome σ E S).state = s ∧
      ∀ c ∈ (healthCheck NewRecorder r s : Outcome σ E S).calls,
        c.isRegistryOrBackend = false) ∧
    (∀ e, validateRequest r "POST" = some e →
      (terminate W NewRecorder r environment s).w = ⟨400, true, e⟩ ∧
      (terminate W NewRecorder r environment s).state = s ∧
      ∀ c ∈ (terminate W NewRecorder r environment s).calls, c.isRegistryOrBackend = false) ∧
    (∀ e, validateRequest r "POST" = some e →
      (checkIn W NewRecorder r s).w = ⟨400, true, e⟩ ∧
      (checkIn W NewRecorder r s).state = s ∧
      ∀ c ∈ (checkIn W NewRecorder r s).calls, c.isRegistryOrBackend = false) ∧
    ((healthCheck NewRecorder r s : Outcome σ E S).status = 200 ↔ r.Method = "GET") := by
  refine ⟨?_, ?_, ?_, ?_, ?_, ?_⟩
  · rw [Ne, validateRequest_eq_none_iff]
    constructor
    · intro h
      by_cases h1 : r.Method = method
      · right
        by_contra h2
        exact h ⟨h1, h2⟩
      · exact Or.inl h1
    · rintro (h | h) ⟨h1, h2⟩
      · exact h h1
      · exact h2 h
  · intro e hv
    rw [getStatus_of_invalid W r s e hv]
    simp [Call.isRegistryOrBackend]
  · intro e hv
    rw [healthCheck_of_invalid r s e hv]
    simp [Call.isRegistryOrBackend]
  · intro e hv
    rw [terminate_of_invalid W r environment s e hv]
    simp
  · intro e hv
    rw [checkIn_of_invalid W r s e hv]
    simp [Call.isRegistryOrBackend]
  · by_cases hm : r.Method = "GET"
    · rw [healthCheck_of_get r s ((validateRequest_get_iff r).mpr hm)]
      simp [Outcome.status, hm]
    · rw [healthCheck_of_invalid r s _ (validateRequest_get_err r hm)]
      simp [Outcome.status, hm]

/-- Witness of C8: the requests of `TestHealthCheck` and `TestCheckin`, a
POST to `healthCheck` and a POST with a nil body to `checkIn`. -/
theorem validateRequest_gate_witness :
    (healthCheck NewRecorder (sampleRequest "POST" none "") ([] : List String) :
      Outcome (List String) Nat String).w = ⟨400, true, "invalid request method: POST"⟩ ∧
    (checkIn sampleWorld NewRecorder (sampleRequest "POST" none "") []).w =
      ⟨400, true, "form body is null"⟩ ∧
    validateRequest (sampleRequest "GET" none "") "GET" = none :=
  ⟨((validateRequest_gate sampleWorld (sampleRequest "POST" none "") "GET" "aws" []).2.2.1
      "invalid request method: POST" (by decide)).1,
   ((validateRequest_gate sampleWorld (sampleRequest "POST" none "") "POST" "aws" []).2.2.2.2.1
      "form body is null" (by decide)).1,
   by decide⟩

/-! ## Check-ins -/

/-- C9. Evaluation at a malformed check-in: a POST whose body, the two bytes
`no`, is read without error and on which `serializer.Deserialize` reports an
error.  `checkIn` writes nothing to the response (the client gets 200, not
400) and calls `monitor.HandleCheckIn` with the zero values left in the
target. -/
theorem checkIn_malformed_reaches_monitor :
    (sampleWorld.Deserialize [110, 111]).2 = some "invalid payload" ∧
    (checkIn sampleWorld NewRecorder
      (sampleRequest "POST" (some ⟨[110, 111], none⟩) "") []).w = NewRecorder ∧
    (checkIn sampleWorld NewRecorder
      (sampleRequest "POST" (some ⟨[110, 111], none⟩) "") []).status = 200 ∧
    (checkIn sampleWorld NewRecorder
      (sampleRequest "POST" (some ⟨[110, 111], none⟩) "") []).calls =
      [Call.DebugPrintln "http-request: /check-in", Call.Deserialize [110, 111],
       Call.InfoPrintf "Form body: %s" (LogArg.bytes [110, 111]),
       Call.HandleCheckIn "" 0 ""] := by
  decide

/-! ## At-most-once destroy, on the modelled registry and reconciler -/

end Allspark
